import Mathlib

/-!
Verification of the command-dispatch and device-automation engine of the
pystarport ledger bridge (`pystarport/entrypoint.py`, `pystarport/ledger_utils.py`).

The Python source is shallowly embedded: bytes become `List Nat`, the
effectful HTTP/socket calls become explicit oracles (`World`, `ButtonWorld`),
Python exceptions become `Except` values caught where the source catches
them, and thread timing is reduced to the device latency versus the
configured timeouts. Every definition mirrors one Python function.
-/

/-- Bytes are lists of naturals (each byte value is below 256 in the source). -/
abbrev Bytes := List Nat

/-! ## Status words (`ledger_utils.py`, lines 13-17) -/

def STATUS_OK : Bytes := [0x90, 0x00]

def STATUS_USER_REJECTED : Bytes := [0x69, 0x85]

def STATUS_WRONG_LENGTH : Bytes := [0x67, 0x00]

def STATUS_TIMEOUT : Bytes := [0x64, 0x08]

def STATUS_GENERAL_ERROR : Bytes := [0x6F, 0x00]

/-! ## Frame codec (`entrypoint.py`, `ExchangeRequest` / `ExchangeReply`) -/

/-- Fuel-indexed helper for the varint loop; the fuel only serves structural
termination and is invisible whenever it dominates the argument (see
`varintBytes_unfold`). -/
def varintAux : Nat → Nat → Bytes
  | 0, l => [l % 128]
  | fuel + 1, l =>
    if l > 127 then (l % 128 ||| 128) :: varintAux fuel (l / 128)
    else [l % 128]

/-- Varint length bytes of `ExchangeReply.SerializeToString` (entrypoint.py
lines 79-84): the `while l > 127` loop emits `(l AND 0x7F) OR 0x80` digits,
little-endian, then the final digit `l AND 0x7F`; `varintBytes_unfold` shows
this definition satisfies exactly that recurrence. -/
def varintBytes (l : Nat) : Bytes := varintAux l l

/-- `ExchangeReply.SerializeToString` (entrypoint.py lines 74-85): tag byte
`0x0A`, then a single length byte when the payload is short, otherwise the
multi-byte varint, then the payload. -/
def SerializeToString (reply : Bytes) : Bytes :=
  let length := reply.length
  if length < 128 then 0x0A :: length :: reply
  else 0x0A :: (varintBytes length ++ reply)

/-- `ExchangeRequest.ParseFromString` (entrypoint.py lines 61-67): when the
buffer is longer than two bytes and starts with the tag `0x0A`, the single
byte at index 1 is read as the length and that many bytes are taken (clipped
to the buffer); otherwise the whole buffer is the command. -/
def ParseFromString (data : Bytes) : Bytes :=
  if 2 < data.length ∧ data.getD 0 0 = 0x0A then
    let length := data.getD 1 0
    if 2 + length ≤ data.length then (data.drop 2).take length
    else data.drop 2
  else data

/-! ## Command classifier

The dispatch in `SpeculosGRPCBridge.Exchange` (entrypoint.py lines 246-264):
with at least two bytes, `ins = cmd[1]` selects GET_ADDRESS when
`ins == 0x04 and len(cmd) >= 4 and cmd[2] == 0x01`, else SIGN when
`ins == 0x02`, else the command is forwarded verbatim. `cla = cmd[0]` is
extracted only for logging and never inspected by the dispatch. -/

inductive CommandClass
  | passthrough
  | addressRequest
  | signing
deriving DecidableEq

def classify (cmd : Bytes) : CommandClass :=
  match cmd with
  | _cla :: ins :: rest =>
      if ins = 0x04 ∧ rest.length ≥ 2 ∧ rest.getD 0 0 = 0x01 then
        CommandClass.addressRequest
      else if ins = 0x02 then CommandClass.signing
      else CommandClass.passthrough
  | _ => CommandClass.passthrough

/-! ## Device endpoint model

`requests.post(self.api_url, json=..., timeout=T)` is modelled by an oracle:
for each posted command the emulator has a fixed behaviour, a latency in
seconds and an outcome (an exception inside `requests`, or an HTTP response
with a status code and the hex-decoded `data` field, `[]` standing for a
missing or empty field). A post with timeout `T` yields the outcome when the
latency is within `T` and a `requests.exceptions.Timeout` otherwise. -/

inductive HttpOutcome
  | exn
  | resp (status : Nat) (data : Bytes)

structure DeviceBehavior where
  latency : Nat
  outcome : HttpOutcome

structure World where
  device : Bytes → DeviceBehavior

inductive HttpResult
  | timeout
  | exn
  | resp (status : Nat) (data : Bytes)
deriving DecidableEq

def post (w : World) (cmd : Bytes) (timeoutS : Nat) : HttpResult :=
  let b := w.device cmd
  if b.latency ≤ timeoutS then
    match b.outcome with
    | HttpOutcome.exn => HttpResult.exn
    | HttpOutcome.resp s d => HttpResult.resp s d
  else HttpResult.timeout

/-! ## Timeout constants of the engine (entrypoint.py) -/

/-- Silent-attempt device call timeout (entrypoint.py line 476). -/
def SILENT_TIMEOUT : Nat := 10

/-- Address-request interactive sender timeout (entrypoint.py line 497). -/
def ADDRESS_SENDER_TIMEOUT : Nat := 45

/-- Address-request engine wait on the completion event (entrypoint.py line 561). -/
def ADDRESS_ENGINE_WAIT : Nat := 40

/-- Intermediate signing step device call timeout (entrypoint.py line 323). -/
def SIGN_STEP_TIMEOUT : Nat := 10

/-- Passthrough device call timeout (entrypoint.py line 270). -/
def PASSTHROUGH_TIMEOUT : Nat := 30

/-- Final signing sender timeout (entrypoint.py line 353). -/
def TX_FINAL_SENDER_TIMEOUT : Nat := 60

/-- Final signing engine wait on the completion event (entrypoint.py line 456). -/
def TX_FINAL_ENGINE_WAIT : Nat := 60

/-! ## Device call client and sender threads -/

/-- `LedgerAPDU.send_apdu` (ledger_utils.py lines 70-85): a 200 response with
a non-empty `data` field yields its bytes; a 200 with empty `data`, any other
status, or any exception — `requests.exceptions.Timeout` included, since the
handler is a bare `except Exception` — yields `STATUS_USER_REJECTED`. -/
def send_apdu (w : World) (apdu : Bytes) (timeoutS : Nat) : Bytes :=
  match post w apdu timeoutS with
  | HttpResult.resp 200 data =>
      if data ≠ [] then data else STATUS_USER_REJECTED
  | HttpResult.resp _ _ => STATUS_USER_REJECTED
  | HttpResult.timeout => STATUS_USER_REJECTED
  | HttpResult.exn => STATUS_USER_REJECTED

/-- The `send_apdu` sender-thread closures (entrypoint.py lines 347-374 and
492-516): like `send_apdu`, except that `requests.exceptions.Timeout` is
caught separately and mapped to `STATUS_TIMEOUT`. -/
def senderThreadResult (w : World) (cmd : Bytes) (timeoutS : Nat) : Bytes :=
  match post w cmd timeoutS with
  | HttpResult.resp 200 data =>
      if data ≠ [] then data else STATUS_USER_REJECTED
  | HttpResult.resp _ _ => STATUS_USER_REJECTED
  | HttpResult.timeout => STATUS_TIMEOUT
  | HttpResult.exn => STATUS_USER_REJECTED

/-- The instant at which the sender thread sets the completion event: the
device latency, capped by the transport timeout that aborts the request. -/
def senderCompletionTime (w : World) (cmd : Bytes) (timeoutS : Nat) : Nat :=
  min (w.device cmd).latency timeoutS

/-! ## The Exchange operation

`ExchangeResult` records the reply bytes together with the observable side
effects the claims talk about: which commands were posted to the device
endpoint (in order) and whether a button-automation thread was started — such
a thread unconditionally reaches `btn_client.connect()` after its settle
sleep, so `buttonConnect` is the "Button Channel connect was invoked" flag. -/

structure ExchangeResult where
  reply : Bytes
  deviceCalls : List Bytes
  buttonConnect : Bool
deriving DecidableEq

/-- `data[-2:]` on Python bytes. -/
def lastTwo (data : Bytes) : Bytes := data.drop (data.length - 2)

/-- The interactive fallback of `_handle_address_request` (entrypoint.py lines
489-566): the sender thread posts the original command with a 45 s transport
timeout while the presser thread drives the buttons; the engine waits on the
completion event for 40 s and returns the sender result when the event was set
in time and the result is truthy, else `STATUS_USER_REJECTED`. -/
def addressInteractive (w : World) (cmd : Bytes) (calls : List Bytes) :
    ExchangeResult :=
  let r := senderThreadResult w cmd ADDRESS_SENDER_TIMEOUT
  if senderCompletionTime w cmd ADDRESS_SENDER_TIMEOUT ≤ ADDRESS_ENGINE_WAIT ∧
      r ≠ [] then
    ExchangeResult.mk r (calls ++ [cmd]) true
  else
    ExchangeResult.mk STATUS_USER_REJECTED (calls ++ [cmd]) true

/-- `_handle_address_request` (entrypoint.py lines 463-487): the command is
cloned with `P1` forced to `0x00` and posted with a 10 s timeout; a 200
response whose non-empty data ends in `90 00` is returned at once, and every
other outcome (including exceptions) falls through to the interactive path. -/
def handleAddressRequest (w : World) (cmd : Bytes) : ExchangeResult :=
  let silentCmd := cmd.set 2 0x00
  match post w silentCmd SILENT_TIMEOUT with
  | HttpResult.resp 200 data =>
      if data ≠ [] ∧ lastTwo data = STATUS_OK then
        ExchangeResult.mk data [silentCmd] false
      else addressInteractive w cmd [silentCmd]
  | _ => addressInteractive w cmd [silentCmd]

/-- `_handle_final_transaction_approval` (entrypoint.py lines 341-461): sender
thread with a 60 s transport timeout racing the approval presser; the engine
waits 60 s on the completion event. -/
def handleFinalApproval (w : World) (cmd : Bytes) : ExchangeResult :=
  let r := senderThreadResult w cmd TX_FINAL_SENDER_TIMEOUT
  if senderCompletionTime w cmd TX_FINAL_SENDER_TIMEOUT ≤ TX_FINAL_ENGINE_WAIT ∧
      r ≠ [] then
    ExchangeResult.mk r [cmd] true
  else
    ExchangeResult.mk STATUS_USER_REJECTED [cmd] true

/-- The intermediate signing-step branch of `_handle_transaction_signing`
(entrypoint.py lines 318-339): one synchronous post with a 10 s timeout; every
failure, timeouts included, is caught locally and yields `6985`. -/
def signingStep (w : World) (cmd : Bytes) : ExchangeResult :=
  match post w cmd SIGN_STEP_TIMEOUT with
  | HttpResult.resp 200 data =>
      if data ≠ [] then ExchangeResult.mk data [cmd] false
      else ExchangeResult.mk STATUS_USER_REJECTED [cmd] false
  | HttpResult.resp _ _ => ExchangeResult.mk STATUS_USER_REJECTED [cmd] false
  | HttpResult.timeout => ExchangeResult.mk STATUS_USER_REJECTED [cmd] false
  | HttpResult.exn => ExchangeResult.mk STATUS_USER_REJECTED [cmd] false

/-- `_handle_transaction_signing` (entrypoint.py lines 306-316): the tuple
assignment `p1, p2 = cmd[2], ...` reads `cmd[2]` before any length guard, so a
command shorter than three bytes raises `IndexError` (modelled as the
`Except.error`); otherwise `P1 = 0x02` selects the final-approval path and
anything else the plain signing step. -/
def handleTransactionSigning (w : World) (cmd : Bytes) :
    Except Unit ExchangeResult :=
  match cmd.get? 2 with
  | none => Except.error ()
  | some p1 =>
      if p1 = 0x02 then Except.ok (handleFinalApproval w cmd)
      else Except.ok (signingStep w cmd)

/-- The passthrough branch of `Exchange` (entrypoint.py lines 266-300): one
synchronous post with a 30 s timeout; a non-200 status or empty data yields
`6985` in place, and an exception (timeouts included) is caught by the
operation's own top-level handler, which also yields `6985`. -/
def passthroughCall (w : World) (cmd : Bytes) : ExchangeResult :=
  match post w cmd PASSTHROUGH_TIMEOUT with
  | HttpResult.resp 200 data =>
      if data ≠ [] then ExchangeResult.mk data [cmd] false
      else ExchangeResult.mk STATUS_USER_REJECTED [cmd] false
  | HttpResult.resp _ _ => ExchangeResult.mk STATUS_USER_REJECTED [cmd] false
  | HttpResult.timeout => ExchangeResult.mk STATUS_USER_REJECTED [cmd] false
  | HttpResult.exn => ExchangeResult.mk STATUS_USER_REJECTED [cmd] false

/-- `SpeculosGRPCBridge.Exchange` (entrypoint.py lines 239-304): dispatch per
`classify`; any exception escaping a handler is caught by the top-level
`except Exception` and turned into a `6985` reply. -/
def Exchange (w : World) (cmd : Bytes) : ExchangeResult :=
  let r : Except Unit ExchangeResult :=
    match classify cmd with
    | CommandClass.addressRequest => Except.ok (handleAddressRequest w cmd)
    | CommandClass.signing => handleTransactionSigning w cmd
    | CommandClass.passthrough => Except.ok (passthroughCall w cmd)
  match r with
  | Except.ok res => res
  | Except.error _ => ExchangeResult.mk STATUS_USER_REJECTED [] false

/-- The full RPC pipeline: the gRPC deserializer, the servicer method, the
serializer (entrypoint.py lines 88-107). -/
def ExchangePipeline (w : World) (data : Bytes) : Bytes :=
  SerializeToString (Exchange w (ParseFromString data)).reply

/-! ## Button channel client

`LedgerButton` exists twice, in ledger_utils.py (lines 20-62) and in
entrypoint.py (lines 153-201), with identical control flow in `_send` (the
entrypoint copy only adds prints). The socket world fixes whether a fresh
`connect()` would succeed and whether `self._client.send` succeeds. -/

structure ButtonWorld where
  connectOk : Bool
  sendOk : Bool

/-- The text tokens are sent UTF-8 encoded; byte values of the source
literals. -/
def TOKEN_LEFT : Bytes := [0x4C, 0x6C]

def TOKEN_RIGHT : Bytes := [0x52, 0x72]

def TOKEN_BOTH : Bytes := [0x4C, 0x52, 0x6C, 0x72]

/-- `LedgerButton._send` (ledger_utils.py lines 38-45 and entrypoint.py lines
175-183): auto-connects when not connected, returns `false` without raising
when the connect or the send fails; the second component records the bytes
handed to `socket.send`, `none` when the send was never reached. -/
def button_send (connected : Bool) (bw : ButtonWorld) (data : Bytes) :
    Bool × Option Bytes :=
  if !connected && !bw.connectOk then (false, none)
  else (bw.sendOk, some data)

/-- `LedgerButton.press_left` (ledger_utils.py line 47). -/
def lu_press_left (connected : Bool) (bw : ButtonWorld) : Bool × Option Bytes :=
  button_send connected bw TOKEN_LEFT

/-- `LedgerButton.press_right` (ledger_utils.py line 50). -/
def lu_press_right (connected : Bool) (bw : ButtonWorld) : Bool × Option Bytes :=
  button_send connected bw TOKEN_RIGHT

/-- `LedgerButton.press_both` (ledger_utils.py line 53). -/
def lu_press_both (connected : Bool) (bw : ButtonWorld) : Bool × Option Bytes :=
  button_send connected bw TOKEN_BOTH

/-- Python values the entrypoint press methods can return: `print(...)` yields
`None`, so `self._send(..) and print(..)` is `None` on a successful send and
`False` on a failed one. -/
inductive PyVal
  | none
  | bool (b : Bool)
deriving DecidableEq

/-- `LedgerButton.press_left` (entrypoint.py line 185): the source chains the
send result with a `print` call via `and`. -/
def ep_press_left (connected : Bool) (bw : ButtonWorld) : PyVal × Option Bytes :=
  let r := button_send connected bw TOKEN_LEFT
  (if r.1 then PyVal.none else PyVal.bool false, r.2)

/-- `LedgerButton.press_right` (entrypoint.py line 188). -/
def ep_press_right (connected : Bool) (bw : ButtonWorld) : PyVal × Option Bytes :=
  let r := button_send connected bw TOKEN_RIGHT
  (if r.1 then PyVal.none else PyVal.bool false, r.2)

/-- `LedgerButton.press_both` (entrypoint.py line 191). -/
def ep_press_both (connected : Bool) (bw : ButtonWorld) : PyVal × Option Bytes :=
  let r := button_send connected bw TOKEN_BOTH
  (if r.1 then PyVal.none else PyVal.bool false, r.2)

/-! ## Presser scripts as event traces

A presser script is abstracted to its sequence of observable events: samples
of the completion event (`check b`, where `b` is the value `is_set()`
returned) and button presses. The completion event is read through
`sig : Nat → Bool`, giving the value of the `k`-th `is_set()` sample of the
script. Sleeps and prints are dropped; connect/disconnect carry no press and
are dropped too (a failed connect aborts the script, modelled by the
`connectOk` flag). -/

inductive Press
  | left
  | right
  | both
deriving DecidableEq

inductive Ev
  | check (b : Bool)
  | press (p : Press)
deriving DecidableEq

/-- `user_interaction` (entrypoint.py lines 518-556): right, right, both are
pressed with no completion check; the first check (sample 0, conjoined with a
`90 00` test on the sender result) only decides an early return, the
corrective left+both pair follows unchecked, and only the last right+both pair
is guarded by a check (sample 1). -/
def userInteractionTrace (connectOk : Bool) (sig : Nat → Bool)
    (result9000 : Bool) : List Ev :=
  if connectOk then
    [Ev.press Press.right, Ev.press Press.right, Ev.press Press.both,
     Ev.check (sig 0)] ++
    (if sig 0 ∧ result9000 then []
     else
       [Ev.press Press.left, Ev.press Press.both, Ev.check (sig 1)] ++
       (if sig 1 then []
        else [Ev.press Press.right, Ev.press Press.both]))
  else []

/-- `cosmos_address_automation` (ledger_utils.py lines 185-213): same shape as
`user_interaction`; the first check is `is_set() and btn_client.connected`,
and `connected` is true at that point. -/
def cosmosAddressTrace (connectOk : Bool) (sig : Nat → Bool) : List Ev :=
  if connectOk then
    [Ev.press Press.right, Ev.press Press.right, Ev.press Press.both,
     Ev.check (sig 0)] ++
    (if sig 0 then []
     else
       [Ev.press Press.left, Ev.press Press.both, Ev.check (sig 1)] ++
       (if sig 1 then []
        else [Ev.press Press.right, Ev.press Press.both]))
  else []

/-- The navigation loop of `transaction_approval` (entrypoint.py lines
405-412): up to `fuel` iterations, each sampling the completion event and
pressing right only when it was unset; returns the trace and the next sample
index. -/
def navLoopTrace : Nat → Nat → (Nat → Bool) → List Ev × Nat
  | 0, k, _ => ([], k)
  | n + 1, k, sig =>
    if sig k then ([Ev.check true], k + 1)
    else
      let r := navLoopTrace n (k + 1) sig
      (Ev.check false :: Ev.press Press.right :: r.1, r.2)

/-- The approval loop of `transaction_approval` (entrypoint.py lines 421-441):
each attempt samples the event before pressing both; at attempts 2 and 4 a
corrective left press follows, itself guarded by its own sample thanks to the
short-circuit `attempt == i and not is_set()`. -/
def approvalLoopTrace : Nat → Nat → Nat → (Nat → Bool) → List Ev × Nat
  | 0, _, k, _ => ([], k)
  | n + 1, attempt, k, sig =>
    if sig k then ([Ev.check true], k + 1)
    else
      let tail :=
        if attempt = 2 then
          if sig (k + 1) then
            let r := approvalLoopTrace n (attempt + 1) (k + 2) sig
            (Ev.check true :: r.1, r.2)
          else
            let r := approvalLoopTrace n (attempt + 1) (k + 2) sig
            (Ev.check false :: Ev.press Press.left :: r.1, r.2)
        else if attempt = 4 then
          if sig (k + 1) then
            let r := approvalLoopTrace n (attempt + 1) (k + 2) sig
            (Ev.check true :: r.1, r.2)
          else
            let r := approvalLoopTrace n (attempt + 1) (k + 2) sig
            (Ev.check false :: Ev.press Press.left :: r.1, r.2)
        else approvalLoopTrace n (attempt + 1) (k + 1) sig
      (Ev.check false :: Ev.press Press.both :: tail.1, tail.2)

/-- `transaction_approval` (entrypoint.py lines 376-451): 11 navigation steps,
then a phase-gate sample guarding 6 approval attempts followed by one final
sample (the "all attempts failed" report). -/
def txApprovalTrace (connectOk : Bool) (sig : Nat → Bool) : List Ev :=
  if connectOk then
    let nav := navLoopTrace 11 0 sig
    nav.1 ++
    (if sig nav.2 then [Ev.check true]
     else
       let ap := approvalLoopTrace 6 0 (nav.2 + 1) sig
       Ev.check false :: (ap.1 ++ [Ev.check (sig ap.2)]))
  else []

/-- A press is admissible only directly after a completion sample that
returned unset. -/
def stepOk (prev e : Ev) : Bool :=
  match e with
  | Ev.press _ =>
      match prev with
      | Ev.check false => true
      | _ => false
  | _ => true

def guardedAfter : Ev → List Ev → Bool
  | _, [] => true
  | prev, e :: rest => stepOk prev e && guardedAfter e rest

/-- Every press of the trace is immediately preceded by a completion sample
that returned unset; the dummy predecessor `check true` rules out an
unguarded leading press. -/
def pressesGuarded (l : List Ev) : Bool :=
  guardedAfter (Ev.check true) l

/-- Last event of a trace, the given predecessor when the trace is empty. -/
def lastEv : Ev → List Ev → Ev
  | prev, [] => prev
  | _, e :: rest => lastEv e rest

/-! ## Helper lemmas -/

/-- The fuel of `varintAux` is invisible as long as it dominates the
argument. -/
lemma varintAux_congr : ∀ f1 f2 l : Nat, l ≤ f1 → l ≤ f2 →
    varintAux f1 l = varintAux f2 l := by
  intro f1
  induction f1 with
  | zero =>
    intro f2 l h1 h2
    have hl : l = 0 := by omega
    subst hl
    cases f2 with
    | zero => rfl
    | succ g => simp [varintAux]
  | succ f ih =>
    intro f2 l h1 h2
    cases f2 with
    | zero =>
      have hl : l = 0 := by omega
      subst hl
      simp [varintAux]
    | succ g =>
      by_cases hl : l > 127
      · simp only [varintAux, hl, if_true]
        have hdiv : l / 128 < l := Nat.div_lt_self (by omega) (by omega)
        exact congrArg _ (ih g (l / 128) (by omega) (by omega))
      · simp [varintAux, hl]

/-- `varintBytes` satisfies exactly the recurrence of the source's
`while l > 127` loop. -/
lemma varintBytes_unfold (l : Nat) :
    varintBytes l =
      if l > 127 then (l % 128 ||| 128) :: varintBytes (l / 128)
      else [l % 128] := by
  unfold varintBytes
  by_cases hl : l > 127
  · have hpos : l = (l - 1) + 1 := by omega
    rw [if_pos hl, hpos]
    simp only [varintAux, show (l - 1) + 1 > 127 from hpos ▸ hl, if_true]
    rw [← hpos]
    have hdiv : l / 128 < l := Nat.div_lt_self (by omega) (by omega)
    exact congrArg _ (varintAux_congr (l - 1) (l / 128) (l / 128)
      (by omega) (le_refl _))
  · rw [if_neg hl]
    cases l with
    | zero => rfl
    | succ m => simp [varintAux, hl]

/-- A serialized reply always has the tag/varint/payload shape. -/
lemma serializeToString_shape (r : Bytes) :
    SerializeToString r = 0x0A :: (varintBytes r.length ++ r) := by
  unfold SerializeToString
  by_cases h : r.length < 128
  · have h128 : r.length % 128 = r.length := Nat.mod_eq_of_lt (by omega)
    rw [if_pos h, varintBytes_unfold]
    rw [if_neg (by omega)]
    simp [h128]
  · rw [if_neg h]

/-- The varint emitted by the loop never exceeds any digit budget `k` able to
represent the value in base 128: the length field is never longer than
necessary. -/
lemma varintAux_minimal : ∀ fuel l k : Nat, 1 ≤ k → l < 128 ^ k →
    (varintAux fuel l).length ≤ k := by
  intro fuel
  induction fuel with
  | zero => intro l k hk _; simp [varintAux]; omega
  | succ f ih =>
    intro l k hk hlt
    rw [varintAux]
    split
    · rename_i hl
      have hk2 : 1 ≤ k - 1 := by
        by_contra hk0
        have : k = 1 := by omega
        subst this
        simp [pow_one] at hlt
        omega
      have hdiv : l / 128 < 128 ^ (k - 1) := by
        apply Nat.div_lt_of_lt_mul
        calc l < 128 ^ k := hlt
          _ = 128 * 128 ^ (k - 1) := by
            rw [← pow_succ']
            congr 1
            omega
      have := ih (l / 128) (k - 1) hk2 hdiv
      simp only [List.length_cons]
      omega
    · simp; omega

lemma varintBytes_minimal (k n : Nat) (hk : 1 ≤ k) (hlt : n < 128 ^ k) :
    (varintBytes n).length ≤ k :=
  varintAux_minimal n n k hk hlt

/-- The sender thread always produces a non-empty (hence truthy) result. -/
lemma senderThreadResult_ne_nil (w : World) (cmd : Bytes) (timeoutS : Nat) :
    senderThreadResult w cmd timeoutS ≠ [] := by
  unfold senderThreadResult
  split
  · split_ifs with h
    · exact h
    · simp [STATUS_USER_REJECTED]
  · simp [STATUS_USER_REJECTED]
  · simp [STATUS_TIMEOUT]
  · simp [STATUS_USER_REJECTED]

lemma guardedAfter_append : ∀ (l1 : List Ev) (prev : Ev) (l2 : List Ev),
    guardedAfter prev (l1 ++ l2) =
      (guardedAfter prev l1 && guardedAfter (lastEv prev l1) l2) := by
  intro l1
  induction l1 with
  | nil => intro prev l2; simp [guardedAfter, lastEv]
  | cons e t ih =>
    intro prev l2
    simp only [List.cons_append, guardedAfter, lastEv, List.append_eq, ih,
      Bool.and_assoc]

lemma navLoopTrace_guarded : ∀ (n k : Nat) (sig : Nat → Bool) (prev : Ev),
    guardedAfter prev (navLoopTrace n k sig).1 = true := by
  intro n
  induction n with
  | zero => intro k sig prev; simp [navLoopTrace, guardedAfter]
  | succ n ih =>
    intro k sig prev
    rw [navLoopTrace]
    by_cases h : sig k
    · simp [h, guardedAfter, stepOk]
    · simp only [h, if_false, guardedAfter, stepOk, Bool.true_and]
      exact ih (k + 1) sig (Ev.press Press.right)

lemma approvalLoopTrace_guarded :
    ∀ (n attempt k : Nat) (sig : Nat → Bool) (prev : Ev),
    guardedAfter prev (approvalLoopTrace n attempt k sig).1 = true := by
  intro n
  induction n with
  | zero => intro attempt k sig prev; simp [approvalLoopTrace, guardedAfter]
  | succ n ih =>
    intro attempt k sig prev
    rw [approvalLoopTrace]
    by_cases h : sig k
    · simp [h, guardedAfter, stepOk]
    · simp only [h, if_false]
      by_cases h2 : attempt = 2
      · subst h2
        by_cases h3 : sig (k + 1)
        · simp only [if_true, h3, guardedAfter, stepOk, Bool.true_and]
          exact ih 3 (k + 2) sig (Ev.check true)
        · simp only [if_true, h3, if_false, guardedAfter, stepOk,
            Bool.true_and]
          exact ih 3 (k + 2) sig (Ev.press Press.left)
      · by_cases h4 : attempt = 4
        · subst h4
          by_cases h3 : sig (k + 1)
          · simp only [h2, if_false, if_true, h3, guardedAfter, stepOk,
              Bool.true_and]
            exact ih 5 (k + 2) sig (Ev.check true)
          · simp only [h2, if_false, if_true, h3, guardedAfter, stepOk,
              Bool.true_and]
            exact ih 5 (k + 2) sig (Ev.press Press.left)
        · simp only [h2, if_false, h4, guardedAfter, stepOk, Bool.true_and]
          exact ih (attempt + 1) (k + 1) sig (Ev.press Press.both)

/-! ## Claims -/

/-- Claim C1: for every inbound request frame — empty, short, malformed, or
one that triggers an index error in a handler — and for every behaviour of
the device endpoint, the Exchange operation returns a syntactically valid
reply frame (tag byte, varint length, payload) and, being a total function of
the embedded world, never lets an exception propagate across the RPC
boundary. -/
theorem exchange_always_valid_frame (w : World) (data : Bytes) :
    ∃ payload : Bytes,
      ExchangePipeline w data =
        0x0A :: (varintBytes payload.length ++ payload) ∧
      payload = (Exchange w (ParseFromString data)).reply := by
  refine ⟨(Exchange w (ParseFromString data)).reply, ?_, rfl⟩
  unfold ExchangePipeline
  exact serializeToString_shape _

set_option maxRecDepth 4000 in
/-- Claim C2 counterexample: the round-trip fails at payload lengths 0 and
128 — the parser treats a buffer of length ≤ 2 as its own payload and reads
only a single length byte, so the second varint byte leaks into the payload. -/
theorem roundtrip_fails_at_boundaries :
    ParseFromString (SerializeToString []) ≠ [] ∧
    ParseFromString (SerializeToString (List.replicate 128 0)) ≠
      List.replicate 128 0 := by
  refine ⟨by decide, by decide⟩

/-- Claim C2 amended: decoding an encoded frame returns the original payload
exactly for payload lengths 1 through 127; among the listed lengths the
round-trip holds for 1 and 127 and fails for 0, 128, 300 and 20000. -/
theorem roundtrip_small (p : Bytes) (h1 : 1 ≤ p.length)
    (h2 : p.length ≤ 127) :
    ParseFromString (SerializeToString p) = p := by
  have hs : SerializeToString p = 0x0A :: p.length :: p := by
    unfold SerializeToString
    rw [if_pos (by omega)]
  rw [hs]
  unfold ParseFromString
  have hc : 2 < (0x0A :: p.length :: p).length ∧
      (0x0A :: p.length :: p).getD 0 0 = 0x0A := by
    refine ⟨?_, rfl⟩
    simp only [List.length_cons]
    omega
  rw [if_pos hc]
  have hlen : (0x0A :: p.length :: p).getD 1 0 = p.length := rfl
  simp only [hlen]
  rw [if_pos (by simp only [List.length_cons]; omega)]
  simp [List.take_length]

/-- Witness for the amended C2 at a concrete one-byte payload. -/
theorem roundtrip_small_witness :
    ParseFromString (SerializeToString [0x07]) = [0x07] :=
  roundtrip_small [0x07] (by decide) (by decide)

/-- Claim C9: encode always succeeds and its output length is payload length
plus one tag byte plus the length of the emitted varint; and the emitted
varint never exceeds any digit budget able to represent the payload length in
base 128, i.e. the length field is never longer than necessary. -/
theorem encode_length_minimal (p : Bytes) :
    (SerializeToString p).length =
      p.length + 1 + (varintBytes p.length).length ∧
    ∀ k, 1 ≤ k → p.length < 128 ^ k → (varintBytes p.length).length ≤ k := by
  constructor
  · rw [serializeToString_shape]
    simp only [List.length_cons, List.length_append]
    omega
  · intro k hk hlt
    exact varintBytes_minimal k p.length hk hlt

set_option maxRecDepth 4000 in
/-- Witness for C9 at the 127/128 boundary: a 128-byte payload needs, and
gets, a two-byte length field. -/
theorem encode_length_minimal_witness :
    (SerializeToString (List.replicate 128 0)).length =
      (List.replicate 128 0).length + 1 +
        (varintBytes (List.replicate 128 0).length).length ∧
    (varintBytes (List.replicate 128 0).length).length ≤ 2 :=
  ⟨(encode_length_minimal (List.replicate 128 0)).1,
    (encode_length_minimal (List.replicate 128 0)).2 2 (by omega) (by decide)⟩

/-- Claim C6 counterexample: commands whose leading CLA byte (0x00, 0x13)
belongs to neither supported coin family are still classified as signing when
INS is 0x02 — they are not passed through, and the address classification is
likewise independent of CLA. -/
theorem classify_unreserved_cla_not_passthrough :
    classify [0x00, 0x02] = CommandClass.signing ∧
    classify [0x13, 0x02] = CommandClass.signing ∧
    CommandClass.signing ≠ CommandClass.passthrough ∧
    classify [0x55, 0x04, 0x01, 0x00] = classify [0x00, 0x04, 0x01, 0x00] := by
  refine ⟨rfl, rfl, by decide, rfl⟩

/-- Claim C6 amended: classification never reads the CLA byte — replacing it
changes nothing — and matches on INS (plus P1 and length for the address
case) alone; any INS other than 0x02 and 0x04 is passed through. -/
theorem classify_ins_only (a b ins : Nat) (tl : Bytes)
    (h2 : ins ≠ 0x02) (h4 : ins ≠ 0x04) :
    classify (a :: tl) = classify (b :: tl) ∧
    classify (a :: ins :: tl) = CommandClass.passthrough := by
  constructor
  · cases tl with
    | nil => rfl
    | cons i t => rfl
  · simp [classify, h2, h4]

/-- Witness for the amended C6 at concrete bytes. -/
theorem classify_ins_only_witness :
    classify [0x00, 0x00] = classify [0x01, 0x00] ∧
    classify [0x00, 0x03, 0x00] = CommandClass.passthrough :=
  classify_ins_only 0x00 0x01 0x03 [0x00] (by decide) (by decide)

/-- Claim C10: a two-byte command whose INS byte is 0x02 makes the signing
handler read `cmd[2]` before any length guard; the `IndexError` is swallowed
by the top-level handler of Exchange, which replies with the user-rejected
word 69 85 without ever posting the command to the device endpoint. -/
theorem short_sign_command_rejected (w : World) (a : Nat) :
    Exchange w [a, 0x02] =
      ExchangeResult.mk STATUS_USER_REJECTED [] false ∧
    handleTransactionSigning w [a, 0x02] = Except.error () := by
  exact ⟨rfl, rfl⟩

/-- Claim C3 counterexample: on a transport exception the device call replies
with the user-rejected word 69 85, not the general-error word 6F 00, and on a
transport timeout it also replies 69 85, not the timeout word 64 08. -/
theorem send_apdu_not_general_error :
    send_apdu (World.mk fun _ => DeviceBehavior.mk 0 HttpOutcome.exn)
      [0xB0] 30 = STATUS_USER_REJECTED ∧
    STATUS_USER_REJECTED ≠ STATUS_GENERAL_ERROR ∧
    send_apdu
      (World.mk fun _ => DeviceBehavior.mk 100 (HttpOutcome.resp 200 [0x90, 0x00]))
      [0xB0] 30 = STATUS_USER_REJECTED ∧
    STATUS_USER_REJECTED ≠ STATUS_TIMEOUT := by
  refine ⟨rfl, by decide, rfl, by decide⟩

/-- Claim C3 amended: on any transport error, non-2xx response, malformed
(empty) body, or timeout, the device call returns the user-rejected status
word 69 85 as a full reply and never propagates an error to its caller. -/
theorem send_apdu_user_rejected_on_failure (w : World) (apdu : Bytes)
    (timeoutS : Nat)
    (h : ∀ data : Bytes,
      post w apdu timeoutS = HttpResult.resp 200 data → data = []) :
    send_apdu w apdu timeoutS = STATUS_USER_REJECTED := by
  unfold send_apdu
  split
  · rename_i data heq
    have hd := h data heq
    simp [hd]
  · rfl
  · rfl
  · rfl

/-- Witness for the amended C3 at a concrete non-2xx response. -/
theorem send_apdu_failure_witness :
    send_apdu
      (World.mk fun _ => DeviceBehavior.mk 0 (HttpOutcome.resp 500 [0x90, 0x00]))
      [0xB0, 0x01] 30 = STATUS_USER_REJECTED :=
  send_apdu_user_rejected_on_failure _ _ _ (by
    intro d hd
    simp [post] at hd)

/-- Claim C4: for the address command 55 04 01 00, when the device call on
the silent variant 55 04 00 00 yields a 200 response whose bytes end in the
success word 90 00, Exchange returns exactly that response, the only device
call made is the silent variant, and no button-automation thread (hence no
Button Channel connect) is ever started. -/
theorem silent_short_circuit (w : World) (data : Bytes)
    (h1 : post w [0x55, 0x04, 0x00, 0x00] SILENT_TIMEOUT =
      HttpResult.resp 200 data)
    (h2 : data ≠ []) (h3 : lastTwo data = STATUS_OK) :
    Exchange w [0x55, 0x04, 0x01, 0x00] =
      ExchangeResult.mk data [[0x55, 0x04, 0x00, 0x00]] false := by
  show handleAddressRequest w [0x55, 0x04, 0x01, 0x00] =
    ExchangeResult.mk data [[0x55, 0x04, 0x00, 0x00]] false
  have hset : ([0x55, 0x04, 0x01, 0x00] : Bytes).set 2 0x00 =
      [0x55, 0x04, 0x00, 0x00] := rfl
  unfold handleAddressRequest
  rw [hset]
  simp only [h1]
  simp [h2, h3]

/-- Witness for C4 with a concrete stub device. -/
theorem silent_short_circuit_witness :
    Exchange
      (World.mk fun _ =>
        DeviceBehavior.mk 0 (HttpOutcome.resp 200 [0xAB, 0x90, 0x00]))
      [0x55, 0x04, 0x01, 0x00] =
    ExchangeResult.mk [0xAB, 0x90, 0x00] [[0x55, 0x04, 0x00, 0x00]] false :=
  silent_short_circuit _ _ rfl (by decide) (by decide)

/-- Claim C5 counterexample: with the completion signal set from the very
start (every sample returns true), the address-confirmation script still
presses right, right, both before taking its first sample — presses are
issued in scripted steps with no immediately preceding check. -/
theorem address_script_presses_unchecked :
    pressesGuarded (userInteractionTrace true (fun _ => true) true) = false ∧
    (userInteractionTrace true (fun _ => true) true).take 3 =
      [Ev.press Press.right, Ev.press Press.right, Ev.press Press.both] := by
  exact ⟨rfl, rfl⟩

/-- Claim C5 amended: in the transaction-approval script every press is
immediately preceded by a completion-signal check, so no press is issued in a
step that observed the signal set; the address-confirmation scripts
(`user_interaction` and `cosmos_address_automation`) violate this — their
initial navigation presses (right, right, both) are issued without any check,
whatever the signal's state. -/
theorem presser_check_discipline (connectOk : Bool) (sig : Nat → Bool)
    (result9000 : Bool) :
    pressesGuarded (txApprovalTrace connectOk sig) = true ∧
    (userInteractionTrace true sig result9000).take 3 =
      [Ev.press Press.right, Ev.press Press.right, Ev.press Press.both] ∧
    (cosmosAddressTrace true sig).take 3 =
      [Ev.press Press.right, Ev.press Press.right, Ev.press Press.both] := by
  refine ⟨?_, rfl, rfl⟩
  unfold pressesGuarded txApprovalTrace
  by_cases hc : connectOk
  · simp only [hc, if_true]
    rw [guardedAfter_append, navLoopTrace_guarded]
    simp only [Bool.true_and]
    by_cases hs : sig (navLoopTrace 11 0 sig).2
    · simp [hs, guardedAfter, stepOk]
    · simp only [hs, if_false, guardedAfter, stepOk, Bool.true_and]
      rw [guardedAfter_append, approvalLoopTrace_guarded]
      simp [guardedAfter, stepOk]
  · simp [hc, guardedAfter]

/-- Claim C7 counterexample: in the address path the engine waits only 40 s
on the completion event while the sender's device-call timeout is 45 s; with
a device latency of 42 s the sender produces the success response, yet
Exchange discards it and replies 69 85. -/
theorem address_wait_discards_sender_result :
    (Exchange
        (World.mk fun _ =>
          DeviceBehavior.mk 42 (HttpOutcome.resp 200 [0x01, 0x90, 0x00]))
        [0x55, 0x04, 0x01, 0x00]).reply = STATUS_USER_REJECTED ∧
    senderThreadResult
        (World.mk fun _ =>
          DeviceBehavior.mk 42 (HttpOutcome.resp 200 [0x01, 0x90, 0x00]))
        [0x55, 0x04, 0x01, 0x00] ADDRESS_SENDER_TIMEOUT = [0x01, 0x90, 0x00] ∧
    ADDRESS_ENGINE_WAIT < ADDRESS_SENDER_TIMEOUT := by
  refine ⟨rfl, rfl, by decide⟩

/-- Claim C7 amended: only the final-transaction path satisfies the claim —
its engine wait (60 s) is at least the sender's device-call timeout (60 s),
and the sender's result is always returned; the address path has an engine
wait of 40 s, strictly below its 45 s sender timeout. -/
theorem engine_wait_vs_sender_timeout (w : World) (cmd : Bytes) :
    TX_FINAL_SENDER_TIMEOUT ≤ TX_FINAL_ENGINE_WAIT ∧
    ADDRESS_ENGINE_WAIT < ADDRESS_SENDER_TIMEOUT ∧
    (handleFinalApproval w cmd).reply =
      senderThreadResult w cmd TX_FINAL_SENDER_TIMEOUT := by
  refine ⟨by decide, by decide, ?_⟩
  unfold handleFinalApproval
  rw [if_pos ⟨show min (w.device cmd).latency 60 ≤ 60 from Nat.min_le_right _ _,
    senderThreadResult_ne_nil w cmd _⟩]

/-- Claim C8 counterexample: with a connected client and a successful send,
the entrypoint press-left returns Python `None` (the value of the chained
`print`), not the boolean `True`. -/
theorem ep_press_returns_none :
    (ep_press_left true (ButtonWorld.mk true true)).1 = PyVal.none ∧
    PyVal.none ≠ PyVal.bool true := by
  exact ⟨rfl, by decide⟩

/-- Claim C8 amended: every press operation sends its fixed token (Ll, Rr,
LRlr as bytes), auto-connects when not connected, and never raises; the
ledger_utils client returns true exactly when the send went through and false
on any I/O failure, while the entrypoint client returns None (falsy) on
success and False on failure because its return value is chained with a
print. -/
theorem button_press_semantics (connected : Bool) (bw : ButtonWorld) :
    (lu_press_left connected bw).1 =
      ((connected || bw.connectOk) && bw.sendOk) ∧
    (lu_press_right connected bw).1 =
      ((connected || bw.connectOk) && bw.sendOk) ∧
    (lu_press_both connected bw).1 =
      ((connected || bw.connectOk) && bw.sendOk) ∧
    ((connected || bw.connectOk) = true →
      (lu_press_left connected bw).2 = some TOKEN_LEFT ∧
      (lu_press_right connected bw).2 = some TOKEN_RIGHT ∧
      (lu_press_both connected bw).2 = some TOKEN_BOTH) ∧
    (ep_press_left connected bw).1 =
      (if (connected || bw.connectOk) && bw.sendOk then PyVal.none
       else PyVal.bool false) ∧
    (ep_press_right connected bw).1 =
      (if (connected || bw.connectOk) && bw.sendOk then PyVal.none
       else PyVal.bool false) ∧
    (ep_press_both connected bw).1 =
      (if (connected || bw.connectOk) && bw.sendOk then PyVal.none
       else PyVal.bool false) := by
  rcases bw with ⟨co, so⟩
  cases connected <;> cases co <;> cases so <;>
    simp [lu_press_left, lu_press_right, lu_press_both, ep_press_left,
      ep_press_right, ep_press_both, button_send]

/-- Witness for the amended C8: an auto-connecting left press sends the Ll
token. -/
theorem button_press_semantics_witness :
    (lu_press_left false (ButtonWorld.mk true true)).2 = some TOKEN_LEFT :=
  ((button_press_semantics false (ButtonWorld.mk true true)).2.2.2.1 rfl).1

